import Mathlib

/-!
Shallow embedding of the JNI bridge in
`src/app/src/main/cpp/native-lib.cpp` (repository rizukirr/audx-android).

The bridge glues two external collaborators — a fixed-rate denoising
engine (`denoiser_create` / `denoiser_process` / `denoiser_destroy`) and a
resampling library (`audx_resample_create` / `audx_resample_process` /
`audx_resample_destroy`) — into one session lifecycle.  The collaborators'
bodies are not part of the repository, so their per-call behaviour is an
oracle parameter of each embedded function; resource acquisition and
release are recorded as an explicit event trace.
-/

namespace Audx

/-- Native-rate constant `AUDX_DEFAULT_SAMPLE_RATE` (48 kHz, spec §2/§3). -/
def AUDX_DEFAULT_SAMPLE_RATE : Nat := 48000

/-- Native frame-size constant `AUDX_DEFAULT_FRAME_SIZE` (10 ms at 48 kHz). -/
def AUDX_DEFAULT_FRAME_SIZE : Nat := 480

/-- Modelled from the spec: `get_frame_samples` lives in the audx common
library, which is not under `src/`; the spec (§4.2) defines the frame size
as `round(inputRate × 0.010)` (10 ms nominal frame), here in integer form;
a theorem below proves it equal to the rounded rational product for every
rate. -/
def get_frame_samples (rate : Nat) : Nat :=
  (rate * 10 + 500) / 1000

/-- The resources the bridge acquires and releases. -/
inductive Res
  | engine        -- the denoiser engine instance
  | upsampler     -- persistent upconverter input_rate → 48 kHz
  | downsampler   -- persistent downconverter 48 kHz → input_rate
  | resamplerCtx  -- the `ResamplerContext` record
  | handleRec     -- the `NativeHandle` session record
  deriving DecidableEq, Repr

/-- An allocation / release event, in program order. -/
inductive Event
  | alloc (r : Res)
  | release (r : Res)
  deriving DecidableEq, Repr

/-- Resources still allocated after a trace (alloc adds, release removes). -/
def liveAfter (es : List Event) : List Res :=
  es.foldl
    (fun acc e =>
      match e with
      | Event.alloc r => acc ++ [r]
      | Event.release r => acc.erase r)
    []

/-- `struct DenoiserResult` (native-lib.cpp): VAD probability, speech flag,
samples-processed count. -/
structure DenoiserResult where
  vad_probability : ℚ
  is_speech : Bool
  samples_processed : Nat
  deriving DecidableEq, Repr

/-- The denoiser engine instance: its running statistics fields (the ones
`resetStatsNative` writes directly) plus an abstract model state standing
for everything else inside the engine. -/
structure Denoiser where
  frames_processed : Nat
  speech_frames : Nat
  total_vad_score : ℚ
  min_vad_score : ℚ
  max_vad_score : ℚ
  total_processing_time : ℚ
  last_frame_time : ℚ
  modelState : Nat
  deriving DecidableEq, Repr

/-- `struct ResamplerContext` (native-lib.cpp lines 18–27).  The converter
handles are modelled by presence flags (`upsampler`/`downsampler` null or
not); their filter state is external. -/
structure ResamplerContext where
  input_rate : Nat
  output_rate : Nat
  quality : Nat
  needs_resampling : Bool
  input_frame_samples : Nat
  output_frame_samples : Nat
  hasUpsampler : Bool
  hasDownsampler : Bool
  deriving DecidableEq, Repr

/-- `struct NativeHandle` (native-lib.cpp lines 32–35): on every path that
returns a nonzero handle both fields have been set to freshly constructed
objects, so the embedded record holds them directly. -/
structure NativeHandle where
  denoiser : Denoiser
  resampler_ctx : ResamplerContext
  deriving DecidableEq, Repr

/-- Outcome oracle for `createNative`: whether `denoiser_create` and each
`audx_resample_create` call succeeds, and the fresh engine state. -/
structure CreateOracles where
  engineOk : Bool
  upOk : Bool
  downOk : Bool
  freshEngine : Denoiser
  deriving DecidableEq, Repr

/-- `Java_com_android_audx_AudxDenoiser_createNative` (lines 37–118),
with the external create calls replaced by the oracle.  Returns the
caller-visible handle (`none` models the `return 0` failure paths) and
the allocation/release trace. -/
def createNative (inputSampleRate resampleQuality : Nat) (o : CreateOracles) :
    Option NativeHandle × List Event :=
  -- int ret = denoiser_create(&config, denoiser);
  if o.engineOk = false then
    -- delete denoiser; return 0;  (no engine resource was acquired)
    (none, [])
  else
    -- auto *resampler_ctx = new ResamplerContext(); ... field setup
    let ctx : ResamplerContext :=
      { input_rate := inputSampleRate
        output_rate := AUDX_DEFAULT_SAMPLE_RATE
        quality := resampleQuality
        needs_resampling := decide (inputSampleRate ≠ AUDX_DEFAULT_SAMPLE_RATE)
        input_frame_samples := get_frame_samples inputSampleRate
        output_frame_samples := AUDX_DEFAULT_FRAME_SIZE
        hasUpsampler := false
        hasDownsampler := false }
    let t0 : List Event := [Event.alloc Res.engine, Event.alloc Res.resamplerCtx]
    if ctx.needs_resampling then
      -- both audx_resample_create calls run unconditionally
      let t1 := t0 ++ (if o.upOk then [Event.alloc Res.upsampler] else [])
        ++ (if o.downOk then [Event.alloc Res.downsampler] else [])
      if o.upOk = false ∨ o.downOk = false then
        -- unwind: destroy upsampler, destroy downsampler (null destroy is a
        -- no-op), delete ctx, denoiser_destroy + delete denoiser, return 0
        let t2 := t1 ++ (if o.upOk then [Event.release Res.upsampler] else [])
          ++ (if o.downOk then [Event.release Res.downsampler] else [])
          ++ [Event.release Res.resamplerCtx, Event.release Res.engine]
        (none, t2)
      else
        let ctx' := { ctx with hasUpsampler := true, hasDownsampler := true }
        (some { denoiser := o.freshEngine, resampler_ctx := ctx' },
          t1 ++ [Event.alloc Res.handleRec])
    else
      (some { denoiser := o.freshEngine, resampler_ctx := ctx },
        t0 ++ [Event.alloc Res.handleRec])

/-- `Java_com_android_audx_AudxDenoiser_destroyNative` (lines 120–142):
release trace of one call.  `none` models the null handle, the only case
the function's guard (line 127) filters out; any non-null argument — the
function cannot tell a live handle from a stale one — runs the full
release sequence.  The converter destroys run on possibly-null converter
handles, and destroying a null converter is a no-op. -/
def destroyNative : Option NativeHandle → List Event
  | none => []
  | some h =>
    [Event.release Res.engine]
      ++ (if h.resampler_ctx.hasUpsampler then [Event.release Res.upsampler] else [])
      ++ (if h.resampler_ctx.hasDownsampler then [Event.release Res.downsampler] else [])
      ++ [Event.release Res.resamplerCtx, Event.release Res.handleRec]

/-- Number of allocation events of resource `r` in a trace. -/
def allocsOf (r : Res) (es : List Event) : Nat :=
  es.countP (fun e => e == Event.alloc r)

/-- Number of release events of resource `r` in a trace. -/
def releasesOf (r : Res) (es : List Event) : Nat :=
  es.countP (fun e => e == Event.release r)

/-- Modelled from the spec: the statistics update performed inside the audx
engine's process call (the Statistics Aggregator, spec §4.4) — the audx
library is absent from `src/`.  Increments `framesProcessed`, counts speech
frames, accumulates the VAD score, updates the extrema by plain min/max,
accumulates the latency and stores it as the last latency. -/
def recordFrame (d : Denoiser) (vad : ℚ) (sp : Bool) (latency : ℚ) : Denoiser :=
  { d with
    frames_processed := d.frames_processed + 1
    speech_frames := d.speech_frames + (if sp then 1 else 0)
    total_vad_score := d.total_vad_score + vad
    min_vad_score := min d.min_vad_score vad
    max_vad_score := max d.max_vad_score vad
    total_processing_time := d.total_processing_time + latency
    last_frame_time := latency }

/-- Per-call outcome oracle for the external denoising engine. -/
structure EngineOutcome where
  ok : Bool
  vad_probability : ℚ
  is_speech : Bool
  samples_processed : Nat
  latency : ℚ
  outData : List Int
  newModelState : Nat
  deriving DecidableEq, Repr

/-- Modelled from the spec: `denoiser_process` is in the audx library,
absent from `src/`.  Per spec §4.4/§7/§8 a successful engine call fills the
result and the output buffer and records the frame into the engine's running
statistics; a failed engine call leaves the statistics unchanged
("A failed `process` call (simulate engine failure) leaves `framesProcessed`
unchanged"). -/
def denoiser_process (d : Denoiser) (o : EngineOutcome) :
    Option (Denoiser × DenoiserResult × List Int) :=
  if o.ok then
    some
      ({ recordFrame d o.vad_probability o.is_speech o.latency with
          modelState := o.newModelState },
        { vad_probability := o.vad_probability
          is_speech := o.is_speech
          samples_processed := o.samples_processed },
        o.outData)
  else none

/-- Per-call outcome oracle for one external converter invocation:
status, the produced length the converter reports back through the in/out
`out_len` field, and the samples it writes. -/
structure ResampleOutcome where
  ok : Bool
  outLen : Nat
  outData : List Int
  deriving DecidableEq, Repr

/-- `audx_resample_process` boundary (spec §6): the converter body is
external; on success the reported produced length and the written samples
come from the oracle, on failure nothing is produced. -/
def audx_resample_process (o : ResampleOutcome) : Option (Nat × List Int) :=
  if o.ok then some (o.outLen, o.outData.take o.outLen) else none

/-- The three processing stages of one `processNative` call, in the order
they were invoked. -/
inductive Stage
  | upsample
  | denoise
  | downsample
  deriving DecidableEq, Repr

/-- Observable outcome of one `processNative` call on a valid handle:
the caller-visible result (`none` models the `return nullptr` error paths),
the engine state after the call, the Java-side output array after the call,
the stages invoked in order, the buffer length handed to the engine, and
the capacities passed to each converter invocation. -/
structure ProcessOutcome where
  result : Option DenoiserResult
  denoiser : Denoiser
  javaOutput : List Int
  stages : List Stage
  engineInputLen : Option Nat
  upInCap : Option Nat
  upOutCap : Option Nat
  downInCap : Option Nat
  downOutCap : Option Nat
  deriving DecidableEq, Repr

/-- Oracles for the three external calls one `processNative` call can make. -/
structure ProcessOracles where
  up : ResampleOutcome
  eng : EngineOutcome
  down : ResampleOutcome
  deriving DecidableEq, Repr

/-- `ReleaseShortArrayElements(outputArray, output, 0)`: committing the
C-side copy back into the Java array (the copy was initialised from the
array, then its first `w.length` entries were overwritten). -/
def writeBack (w orig : List Int) : List Int :=
  w ++ orig.drop w.length

/-- `Java_com_android_audx_AudxDenoiser_processNative` (lines 144–269) on a
valid handle, with the three external calls replaced by oracles.  Every
error path releases the Java arrays with `JNI_ABORT` (output array
unchanged); the success path commits the output copy. -/
def processNative (h : NativeHandle) (_javaInput javaOutput : List Int)
    (o : ProcessOracles) : ProcessOutcome :=
  let ctx := h.resampler_ctx
  if ctx.needs_resampling then
    -- in_len = input_frame_samples, out_len = output_frame_samples (capacity)
    match audx_resample_process o.up with
    | none =>
      -- Input resampling failed: free buffers, JNI_ABORT both arrays, nullptr
      { result := none, denoiser := h.denoiser, javaOutput := javaOutput
        stages := [Stage.upsample], engineInputLen := none
        upInCap := some ctx.input_frame_samples
        upOutCap := some ctx.output_frame_samples
        downInCap := none, downOutCap := none }
    | some (_upLen, _upData) =>
      -- denoiser_process reads the full malloc'd native-rate buffer of
      -- output_frame_samples entries; the reported upLen is not passed on
      match denoiser_process h.denoiser o.eng with
      | none =>
        { result := none, denoiser := h.denoiser, javaOutput := javaOutput
          stages := [Stage.upsample, Stage.denoise]
          engineInputLen := some ctx.output_frame_samples
          upInCap := some ctx.input_frame_samples
          upOutCap := some ctx.output_frame_samples
          downInCap := none, downOutCap := none }
      | some (d', res, _engData) =>
        -- in_len = output_frame_samples, out_len = input_frame_samples
        match audx_resample_process o.down with
        | none =>
          { result := none, denoiser := d', javaOutput := javaOutput
            stages := [Stage.upsample, Stage.denoise, Stage.downsample]
            engineInputLen := some ctx.output_frame_samples
            upInCap := some ctx.input_frame_samples
            upOutCap := some ctx.output_frame_samples
            downInCap := some ctx.output_frame_samples
            downOutCap := some ctx.input_frame_samples }
        | some (downLen, downData) =>
          -- result.samples_processed = (int) out_len; commit output array
          { result := some { res with samples_processed := downLen }
            denoiser := d'
            javaOutput := writeBack downData javaOutput
            stages := [Stage.upsample, Stage.denoise, Stage.downsample]
            engineInputLen := some ctx.output_frame_samples
            upInCap := some ctx.input_frame_samples
            upOutCap := some ctx.output_frame_samples
            downInCap := some ctx.output_frame_samples
            downOutCap := some ctx.input_frame_samples }
  else
    -- No resampling needed, process directly
    match denoiser_process h.denoiser o.eng with
    | none =>
      { result := none, denoiser := h.denoiser, javaOutput := javaOutput
        stages := [Stage.denoise]
        engineInputLen := some AUDX_DEFAULT_FRAME_SIZE
        upInCap := none, upOutCap := none, downInCap := none, downOutCap := none }
    | some (d', res, engData) =>
      { result := some res, denoiser := d'
        javaOutput := writeBack engData javaOutput
        stages := [Stage.denoise]
        engineInputLen := some AUDX_DEFAULT_FRAME_SIZE
        upInCap := none, upOutCap := none, downInCap := none, downOutCap := none }

/-- The caller-visible part of a process call on a possibly-null handle:
the returned object (`none` = nullptr) and the Java output array after the
call.  A null handle is rejected up front (`Invalid native handle`). -/
def processNativeOpt (slot : Option NativeHandle) (javaInput javaOutput : List Int)
    (o : ProcessOracles) : Option DenoiserResult × List Int :=
  match slot with
  | none => (none, javaOutput)
  | some h =>
    ((processNative h javaInput javaOutput o).result,
      (processNative h javaInput javaOutput o).javaOutput)

/-- Outcome oracle for the call-boundary steps of `processNative` that are
neither processing stages nor array release: the `malloc` calls for the two
native-rate scratch buffers (lines 170–173) and the JNI reflection steps
`FindClass` (line 246), `GetMethodID` (line 253) and `NewObject` (line 260)
that build the returned object. -/
structure CallEnv where
  mallocOk : Bool
  findClassOk : Bool
  getCtorOk : Bool
  newObjectOk : Bool
  deriving DecidableEq, Repr

/-- The whole of `Java_com_android_audx_AudxDenoiser_processNative`
(lines 144–269) on a valid handle: scratch-buffer allocation (resampled
path only, lines 170–182, aborting both arrays on failure), the processing
stages (`processNative`), and then — only after the arrays have been
released, the output already committed with mode 0 at line 243 — the
reflection tail, whose `FindClass`/`GetMethodID` failures and a null
`NewObject` result return nullptr with the output array already
modified. -/
def processNativeCall (h : NativeHandle) (i out : List Int)
    (o : ProcessOracles) (e : CallEnv) : Option DenoiserResult × List Int :=
  if h.resampler_ctx.needs_resampling && !e.mallocOk then
    -- malloc failure: free both buffers, JNI_ABORT both arrays, nullptr
    (none, out)
  else
    match (processNative h i out o).result with
    | none => (none, (processNative h i out o).javaOutput)
    | some r =>
      -- arrays released (output committed); then the reflection tail
      if e.findClassOk && e.getCtorOk && e.newObjectOk then
        (some r, (processNative h i out o).javaOutput)
      else
        (none, (processNative h i out o).javaOutput)

/-- `Java_com_android_audx_AudxDenoiser_resetStatsNative` (lines 351–375):
null handle is a no-op; otherwise all seven statistics fields are reset in
place, the engine model state and resampler context untouched. -/
def resetStatsNative : Option NativeHandle → Option NativeHandle
  | none => none
  | some h =>
    some
      { h with
        denoiser :=
          { h.denoiser with
            frames_processed := 0
            speech_frames := 0
            total_vad_score := 0
            min_vad_score := 1
            max_vad_score := 0
            total_processing_time := 0
            last_frame_time := 0 } }

/-- `Java_com_android_audx_AudxDenoiser_getFrameSamplesNative` (lines
377–381). -/
def getFrameSamplesNative (input_rate : Nat) : Nat :=
  get_frame_samples input_rate

/-- Index of the first release event of resource `r` in a trace. -/
def releaseIdx (r : Res) (es : List Event) : Nat :=
  es.findIdx (fun e => e == Event.release r)

/-- A fresh engine state (all statistics at their initial values,
spec §3: `vadScoreMin` init 1.0, `vadScoreMax` init 0.0). -/
def d0 : Denoiser :=
  { frames_processed := 0, speech_frames := 0, total_vad_score := 0
    min_vad_score := 1, max_vad_score := 0
    total_processing_time := 0, last_frame_time := 0, modelState := 0 }

/-- Concrete resampling session context: 44.1 kHz input against the 48 kHz
native rate. -/
def ctxR : ResamplerContext :=
  { input_rate := 44100, output_rate := 48000, quality := 5
    needs_resampling := true, input_frame_samples := 441
    output_frame_samples := 480, hasUpsampler := true, hasDownsampler := true }

/-- Concrete direct-path session context: input already at the native rate. -/
def ctxD : ResamplerContext :=
  { input_rate := 48000, output_rate := 48000, quality := 5
    needs_resampling := false, input_frame_samples := 480
    output_frame_samples := 480, hasUpsampler := false, hasDownsampler := false }

/-- Concrete session on the resampled path. -/
def sessR : NativeHandle := { denoiser := d0, resampler_ctx := ctxR }

/-- Concrete session on the direct path. -/
def sessD : NativeHandle := { denoiser := d0, resampler_ctx := ctxD }

/-- Create oracles with every external construction succeeding. -/
def oAllOk : CreateOracles :=
  { engineOk := true, upOk := true, downOk := true, freshEngine := d0 }

/-- Process oracles: every stage succeeds; the upconverter reports 480
produced samples, the downconverter 441. -/
def oProcOk : ProcessOracles :=
  { up := { ok := true, outLen := 480, outData := [] }
    eng := { ok := true, vad_probability := 1, is_speech := true
             samples_processed := 480, latency := 1, outData := []
             newModelState := 1 }
    down := { ok := true, outLen := 441, outData := [] } }

/-- Process oracles: input resampling fails. -/
def oUpFail : ProcessOracles :=
  { up := { ok := false, outLen := 0, outData := [] }
    eng := { ok := true, vad_probability := 1, is_speech := true
             samples_processed := 480, latency := 1, outData := []
             newModelState := 1 }
    down := { ok := true, outLen := 441, outData := [] } }

/-- Process oracles: the engine call fails. -/
def oEngFail : ProcessOracles :=
  { up := { ok := true, outLen := 480, outData := [] }
    eng := { ok := false, vad_probability := 1, is_speech := true
             samples_processed := 480, latency := 1, outData := []
             newModelState := 1 }
    down := { ok := true, outLen := 441, outData := [] } }

/-- Process oracles: output resampling fails after a successful engine call. -/
def oDownFail : ProcessOracles :=
  { up := { ok := true, outLen := 480, outData := [] }
    eng := { ok := true, vad_probability := 1, is_speech := true
             samples_processed := 480, latency := 1, outData := []
             newModelState := 1 }
    down := { ok := false, outLen := 0, outData := [] } }

/-- Process oracles: every stage succeeds but the upconverter reports only
479 produced samples (one short of the 480-sample native frame). -/
def oUp479 : ProcessOracles :=
  { up := { ok := true, outLen := 479, outData := [] }
    eng := { ok := true, vad_probability := 1, is_speech := true
             samples_processed := 480, latency := 1, outData := []
             newModelState := 1 }
    down := { ok := true, outLen := 441, outData := [] } }

/-- Process oracles: every stage succeeds and the downconverter writes one
sample, `9`, reporting output length 1. -/
def oDown9 : ProcessOracles :=
  { up := { ok := true, outLen := 480, outData := [] }
    eng := { ok := true, vad_probability := 1, is_speech := true
             samples_processed := 480, latency := 1, outData := []
             newModelState := 1 }
    down := { ok := true, outLen := 1, outData := [9] } }

/-- Call boundary where malloc and every reflection step succeed. -/
def envAllOk : CallEnv :=
  { mallocOk := true, findClassOk := true, getCtorOk := true, newObjectOk := true }

/-- Call boundary where `FindClass` fails after the output was committed. -/
def envNoClass : CallEnv :=
  { mallocOk := true, findClassOk := false, getCtorOk := true, newObjectOk := true }

end Audx

namespace Audx

/-- C1: Session creation is all-or-nothing.  If engine creation fails, no
resampling resources are allocated and the call fails; if the input rate
differs from the native rate and either converter fails to construct, every
converter that was constructed is released, the engine is released, and the
call fails with nothing left allocated; on full success the returned
session owns the engine and (when needed) both converters — no partially
constructed session is returned. -/
theorem create_all_or_nothing (R q : Nat) (o : CreateOracles) :
    (o.engineOk = false →
      (createNative R q o).1 = none ∧ (createNative R q o).2 = []) ∧
    (o.engineOk = true → R ≠ AUDX_DEFAULT_SAMPLE_RATE →
      (o.upOk = false ∨ o.downOk = false) →
      (createNative R q o).1 = none ∧
      liveAfter (createNative R q o).2 = [] ∧
      (o.upOk = true → Event.release Res.upsampler ∈ (createNative R q o).2) ∧
      (o.downOk = true → Event.release Res.downsampler ∈ (createNative R q o).2) ∧
      Event.release Res.engine ∈ (createNative R q o).2) ∧
    (∀ h, (createNative R q o).1 = some h →
      (h.resampler_ctx.needs_resampling = true →
        h.resampler_ctx.hasUpsampler = true ∧ h.resampler_ctx.hasDownsampler = true) ∧
      liveAfter (createNative R q o).2 =
        [Res.engine, Res.resamplerCtx]
          ++ (if h.resampler_ctx.needs_resampling then [Res.upsampler, Res.downsampler] else [])
          ++ [Res.handleRec]) := by
  cases hE : o.engineOk <;>
    cases hU : o.upOk <;>
      cases hD : o.downOk <;>
        by_cases hR : R = AUDX_DEFAULT_SAMPLE_RATE <;>
          simp_all [createNative, liveAfter, AUDX_DEFAULT_SAMPLE_RATE]

/-- C1 witness: engine-creation failure at 44.1 kHz allocates nothing;
an upconverter-construction failure unwinds to an empty live set. -/
theorem create_all_or_nothing_witness :
    ((createNative 44100 5 { engineOk := false, upOk := true, downOk := true, freshEngine := d0 }).1 = none ∧
      (createNative 44100 5 { engineOk := false, upOk := true, downOk := true, freshEngine := d0 }).2 = []) ∧
    (createNative 44100 5 { engineOk := true, upOk := false, downOk := true, freshEngine := d0 }).1 = none ∧
    liveAfter (createNative 44100 5 { engineOk := true, upOk := false, downOk := true, freshEngine := d0 }).2 = [] := by
  refine ⟨(create_all_or_nothing 44100 5 _).1 rfl, ?_, ?_⟩
  · exact ((create_all_or_nothing 44100 5 _).2.1 rfl (by decide) (Or.inl rfl)).1
  · exact ((create_all_or_nothing 44100 5 _).2.1 rfl (by decide) (Or.inl rfl)).2.1

/-- C2: on a session that needs resampling, a process call runs the
upconverter targeting the 480-sample native frame capacity, then the
engine, then the downconverter targeting the input-rate frame capacity,
and overwrites `samples_processed` in the returned result with the
downconverter's reported output length; an upconversion failure aborts
before the engine runs, an engine failure aborts before downconversion. -/
theorem process_resampled_pipeline (h : NativeHandle) (i out : List Int)
    (o : ProcessOracles)
    (hr : h.resampler_ctx.needs_resampling = true)
    (hc : h.resampler_ctx.output_frame_samples = AUDX_DEFAULT_FRAME_SIZE) :
    (processNative h i out o).upOutCap = some AUDX_DEFAULT_FRAME_SIZE ∧
    (o.up.ok = false →
      (processNative h i out o).result = none ∧
      (processNative h i out o).stages = [Stage.upsample]) ∧
    (o.up.ok = true → o.eng.ok = false →
      (processNative h i out o).result = none ∧
      (processNative h i out o).stages = [Stage.upsample, Stage.denoise]) ∧
    (o.up.ok = true → o.eng.ok = true → o.down.ok = true →
      (processNative h i out o).stages =
        [Stage.upsample, Stage.denoise, Stage.downsample] ∧
      (processNative h i out o).downOutCap =
        some h.resampler_ctx.input_frame_samples ∧
      ∃ r, (processNative h i out o).result = some r ∧
        r.samples_processed = o.down.outLen) := by
  cases hU : o.up.ok <;> cases hEng : o.eng.ok <;> cases hDn : o.down.ok <;>
    simp_all [processNative, audx_resample_process, denoiser_process]

/-- C2 witness: on the concrete 44.1 kHz session with all stages
succeeding, the three stages run in order and the result reports the
downconverter's 441 samples. -/
theorem process_resampled_pipeline_witness :
    (processNative sessR [] [] oProcOk).upOutCap = some AUDX_DEFAULT_FRAME_SIZE ∧
    (processNative sessR [] [] oProcOk).stages =
      [Stage.upsample, Stage.denoise, Stage.downsample] ∧
    ∃ r, (processNative sessR [] [] oProcOk).result = some r ∧
      r.samples_processed = 441 := by
  obtain ⟨h1, _, _, h4⟩ := process_resampled_pipeline sessR [] [] oProcOk rfl rfl
  obtain ⟨hs, _, r, hrr, hsp⟩ := h4 rfl rfl rfl
  exact ⟨h1, hs, r, hrr, hsp⟩

/-- C3 counterexample: a process call that fails in output downconversion
returns an error, yet the engine has already recorded the frame — the
running statistics are not left at their pre-call value (framesProcessed
goes from 0 to 1). -/
theorem stats_polluted_on_output_resample_failure :
    (processNative sessR [] [] oDownFail).result = none ∧
    (processNative sessR [] [] oDownFail).denoiser.frames_processed = 1 ∧
    sessR.denoiser.frames_processed = 0 :=
  ⟨rfl, rfl, rfl⟩

/-- C3 amended: the statistics aggregate is unchanged by calls that fail
before or during the engine stage (upconversion failure, engine failure);
whenever the engine stage succeeds the frame is recorded — including on a
call that then fails in output downconversion, which returns an error with
`framesProcessed` already incremented. -/
theorem stats_mutation_discipline (h : NativeHandle) (i out : List Int)
    (o : ProcessOracles) :
    (h.resampler_ctx.needs_resampling = true → o.up.ok = false →
      (processNative h i out o).denoiser = h.denoiser) ∧
    (o.eng.ok = false → (processNative h i out o).denoiser = h.denoiser) ∧
    (o.eng.ok = true →
      (processNative h i out o).denoiser.frames_processed =
        h.denoiser.frames_processed +
          (if h.resampler_ctx.needs_resampling ∧ o.up.ok = false then 0 else 1)) ∧
    (h.resampler_ctx.needs_resampling = true → o.up.ok = true →
      o.eng.ok = true → o.down.ok = false →
      (processNative h i out o).result = none ∧
      (processNative h i out o).denoiser.frames_processed =
        h.denoiser.frames_processed + 1) := by
  cases hr : h.resampler_ctx.needs_resampling <;>
    cases hU : o.up.ok <;> cases hEng : o.eng.ok <;> cases hDn : o.down.ok <;>
      simp_all [processNative, audx_resample_process, denoiser_process, recordFrame]

/-- C3 witness: an engine failure leaves the statistics untouched; a
downconversion failure returns an error with the frame already counted. -/
theorem stats_mutation_discipline_witness :
    (processNative sessR [] [] oEngFail).denoiser = sessR.denoiser ∧
    (processNative sessR [] [] oDownFail).result = none ∧
    (processNative sessR [] [] oDownFail).denoiser.frames_processed =
      sessR.denoiser.frames_processed + 1 := by
  refine ⟨(stats_mutation_discipline sessR [] [] oEngFail).2.1 rfl, ?_, ?_⟩
  · exact ((stats_mutation_discipline sessR [] [] oDownFail).2.2.2 rfl rfl rfl rfl).1
  · exact ((stats_mutation_discipline sessR [] [] oDownFail).2.2.2 rfl rfl rfl rfl).2

/-- C4 counterexample: on a full session, destroy releases the engine
first — the upconverter's release comes after the engine's, so the claimed
order (converters before engine) is false. -/
theorem destroy_order_counterexample :
    destroyNative (some sessR) =
      [Event.release Res.engine, Event.release Res.upsampler,
        Event.release Res.downsampler, Event.release Res.resamplerCtx,
        Event.release Res.handleRec] ∧
    ¬ releaseIdx Res.upsampler (destroyNative (some sessR)) <
        releaseIdx Res.engine (destroyNative (some sessR)) := by
  constructor
  · rfl
  · decide

/-- C4 amended: destroy on a valid session releases the engine first, then
the resampling converters (when present), then the `ResamplerContext`, then
the session record itself. -/
theorem destroy_release_order (h : NativeHandle)
    (hu : h.resampler_ctx.hasUpsampler = true)
    (hd : h.resampler_ctx.hasDownsampler = true) :
    destroyNative (some h) =
      [Event.release Res.engine, Event.release Res.upsampler,
        Event.release Res.downsampler, Event.release Res.resamplerCtx,
        Event.release Res.handleRec] ∧
    releaseIdx Res.engine (destroyNative (some h)) <
      releaseIdx Res.upsampler (destroyNative (some h)) ∧
    releaseIdx Res.downsampler (destroyNative (some h)) <
      releaseIdx Res.resamplerCtx (destroyNative (some h)) ∧
    releaseIdx Res.resamplerCtx (destroyNative (some h)) <
      releaseIdx Res.handleRec (destroyNative (some h)) := by
  have e : destroyNative (some h) =
      [Event.release Res.engine, Event.release Res.upsampler,
        Event.release Res.downsampler, Event.release Res.resamplerCtx,
        Event.release Res.handleRec] := by
    simp [destroyNative, hu, hd]
  refine ⟨e, ?_, ?_, ?_⟩ <;> rw [e] <;> decide

/-- C4 witness: the release order on the concrete 44.1 kHz session. -/
theorem destroy_release_order_witness :
    destroyNative (some sessR) =
      [Event.release Res.engine, Event.release Res.upsampler,
        Event.release Res.downsampler, Event.release Res.resamplerCtx,
        Event.release Res.handleRec] :=
  (destroy_release_order sessR rfl rfl).1

/-- C5 counterexample: destroy is a no-op for the null handle, but not for
an already-destroyed one.  The session created at 44.1 kHz is destroyed
once; a second destroy call with the same (still non-null) handle value —
the function only null-checks — re-runs every release, so across the
create/destroy/destroy sequence the engine is allocated once yet released
twice: a double free, not a no-op. -/
theorem destroy_stale_double_free :
    destroyNative none = [] ∧
    (createNative 44100 5 oAllOk).1 = some sessR ∧
    destroyNative (some sessR) ≠ [] ∧
    allocsOf Res.engine ((createNative 44100 5 oAllOk).2
      ++ destroyNative (some sessR) ++ destroyNative (some sessR)) = 1 ∧
    releasesOf Res.engine ((createNative 44100 5 oAllOk).2
      ++ destroyNative (some sessR) ++ destroyNative (some sessR)) = 2 := by
  refine ⟨rfl, rfl, by decide, by decide, by decide⟩

/-- C5 amended: destroying the null handle is a no-op — it releases
nothing and raises no error — but destroy is not safe against an
already-destroyed handle: the function cannot distinguish a stale non-null
handle from a live one, so a second call with the same handle value
releases the engine (and everything else) again — one engine release per
call, hence a double free across two calls. -/
theorem destroy_null_noop_stale_releases (h : NativeHandle) :
    destroyNative none = [] ∧
    destroyNative (some h) ≠ [] ∧
    releasesOf Res.engine (destroyNative (some h)) = 1 ∧
    releasesOf Res.engine (destroyNative (some h) ++ destroyNative (some h)) = 2 := by
  cases hu : h.resampler_ctx.hasUpsampler <;>
    cases hd : h.resampler_ctx.hasDownsampler <;>
      simp_all [destroyNative, releasesOf]

/-- C6 counterexample: the upconverter reports 479 produced samples, yet
the engine is handed the full fixed 480-sample native buffer — the
reported output length is not used by the subsequent stage. -/
theorem engine_input_ignores_upconverter_length :
    (processNative sessR [] [] oUp479).engineInputLen = some 480 ∧
    oUp479.up.outLen = 479 ∧
    (processNative sessR [] [] oUp479).engineInputLen ≠ some oUp479.up.outLen := by
  refine ⟨rfl, rfl, ?_⟩
  decide

/-- C6 amended: the downconverter's reported output length is used
verbatim as the returned `samples_processed`, but the upconverter's
reported output length is discarded — the engine always receives the fixed
native-frame buffer, whatever the upconverter reported. -/
theorem converter_reported_lengths (h : NativeHandle) (i out : List Int)
    (o : ProcessOracles)
    (hr : h.resampler_ctx.needs_resampling = true) :
    (o.up.ok = true →
      (processNative h i out o).engineInputLen =
        some h.resampler_ctx.output_frame_samples) ∧
    (o.up.ok = true → o.eng.ok = true → o.down.ok = true →
      ∃ r, (processNative h i out o).result = some r ∧
        r.samples_processed = o.down.outLen) := by
  cases hU : o.up.ok <;> cases hEng : o.eng.ok <;> cases hDn : o.down.ok <;>
    simp_all [processNative, audx_resample_process, denoiser_process]

/-- C6 witness: on the concrete session the engine receives the fixed
480-sample buffer and the result carries the downconverter's 441. -/
theorem converter_reported_lengths_witness :
    (processNative sessR [] [] oProcOk).engineInputLen = some 480 ∧
    ∃ r, (processNative sessR [] [] oProcOk).result = some r ∧
      r.samples_processed = 441 := by
  obtain ⟨h1, h2⟩ := converter_reported_lengths sessR [] [] oProcOk rfl
  exact ⟨h1 rfl, h2 rfl rfl rfl⟩

/-- C7 counterexample: distinct taxonomy errors are not reported as
distinct results — engine-init failure and converter-init failure both
return the null handle, and upconversion, engine and downconversion
failures all return the null result object. -/
theorem errors_collapse_to_null :
    (createNative 44100 5 { engineOk := false, upOk := true, downOk := true, freshEngine := d0 }).1 = none ∧
    (createNative 44100 5 { engineOk := true, upOk := false, downOk := true, freshEngine := d0 }).1 = none ∧
    (processNative sessR [] [] oUpFail).result = none ∧
    (processNative sessR [] [] oEngFail).result = none ∧
    (processNative sessR [] [] oDownFail).result = none :=
  ⟨rfl, rfl, rfl, rfl, rfl⟩

/-- C7 amended: every creation or process failure is reported to the
caller as the failure result (null handle / null result) and never as a
success — the result is null exactly when one of the taxonomy errors
occurred — but the null result does not identify which error it was. -/
theorem failure_reporting (R q : Nat) (co : CreateOracles) (h : NativeHandle)
    (i out : List Int) (po : ProcessOracles) :
    ((createNative R q co).1 = none ↔
      (co.engineOk = false ∨
        (R ≠ AUDX_DEFAULT_SAMPLE_RATE ∧ (co.upOk = false ∨ co.downOk = false)))) ∧
    (h.resampler_ctx.needs_resampling = true →
      ((processNative h i out po).result = none ↔
        (po.up.ok = false ∨ po.eng.ok = false ∨ po.down.ok = false))) ∧
    (h.resampler_ctx.needs_resampling = false →
      ((processNative h i out po).result = none ↔ po.eng.ok = false)) ∧
    (processNativeOpt none i out po).1 = none := by
  refine ⟨?_, ?_, ?_, rfl⟩
  · cases hE : co.engineOk <;> cases hU : co.upOk <;> cases hD : co.downOk <;>
      by_cases hR : R = AUDX_DEFAULT_SAMPLE_RATE <;>
        simp_all [createNative, AUDX_DEFAULT_SAMPLE_RATE]
  · intro hr
    cases hU : po.up.ok <;> cases hEng : po.eng.ok <;> cases hDn : po.down.ok <;>
      simp_all [processNative, audx_resample_process, denoiser_process]
  · intro hr
    cases hEng : po.eng.ok <;>
      simp_all [processNative, audx_resample_process, denoiser_process]

/-- C7 witness: on the concrete resampling session an upconversion failure
is reported as the null result, and a call on the null handle returns the
null result. -/
theorem failure_reporting_witness :
    ((processNative sessR [] [] oUpFail).result = none ↔
      (oUpFail.up.ok = false ∨ oUpFail.eng.ok = false ∨ oUpFail.down.ok = false)) ∧
    (processNativeOpt none [] [] oUpFail).1 = none := by
  obtain ⟨_, h2, _, h4⟩ := failure_reporting 44100 5 oAllOk sessR [] [] oUpFail
  exact ⟨h2 rfl, h4⟩

/-- C8: reset restores all seven statistics fields (counters and times to
zero, `vadScoreMin` to 1, `vadScoreMax` to 0), touches neither the engine
model state nor the resampler context, and the next recorded frame with a
VAD probability in [0, 1] unconditionally establishes fresh extrema. -/
theorem reset_stats_fresh_extrema (h : NativeHandle) (v lat : ℚ) (sp : Bool)
    (hv0 : 0 ≤ v) (hv1 : v ≤ 1) :
    ∃ h', resetStatsNative (some h) = some h' ∧
      h'.denoiser.frames_processed = 0 ∧
      h'.denoiser.speech_frames = 0 ∧
      h'.denoiser.total_vad_score = 0 ∧
      h'.denoiser.min_vad_score = 1 ∧
      h'.denoiser.max_vad_score = 0 ∧
      h'.denoiser.total_processing_time = 0 ∧
      h'.denoiser.last_frame_time = 0 ∧
      h'.denoiser.modelState = h.denoiser.modelState ∧
      h'.resampler_ctx = h.resampler_ctx ∧
      (recordFrame h'.denoiser v sp lat).min_vad_score = v ∧
      (recordFrame h'.denoiser v sp lat).max_vad_score = v := by
  refine ⟨_, rfl, rfl, rfl, rfl, rfl, rfl, rfl, rfl, rfl, rfl, ?_, ?_⟩
  · simp [recordFrame, min_eq_right hv1]
  · simp [recordFrame, max_eq_right hv0]

/-- C8 witness: after reset, recording one frame with VAD 0.7 makes 0.7
both the minimum and the maximum. -/
theorem reset_stats_witness :
    ∃ h', resetStatsNative (some sessR) = some h' ∧
      h'.denoiser.frames_processed = 0 ∧
      h'.denoiser.speech_frames = 0 ∧
      h'.denoiser.total_vad_score = 0 ∧
      h'.denoiser.min_vad_score = 1 ∧
      h'.denoiser.max_vad_score = 0 ∧
      h'.denoiser.total_processing_time = 0 ∧
      h'.denoiser.last_frame_time = 0 ∧
      h'.denoiser.modelState = sessR.denoiser.modelState ∧
      h'.resampler_ctx = sessR.resampler_ctx ∧
      (recordFrame h'.denoiser (7/10) true 3).min_vad_score = 7/10 ∧
      (recordFrame h'.denoiser (7/10) true 3).max_vad_score = 7/10 :=
  reset_stats_fresh_extrema sessR (7/10) 3 true (by norm_num) (by norm_num)

/-- C9: the frame size at rate R equals `round(R × 0.010)`, a created
session's `needs_resampling` flag equals `R ≠ 48000`, and every process
call branches on the stored flag alone — for any handle, the upconverter
stage runs exactly when the flag stored at creation is set. -/
theorem frame_sizing_and_resampling_flag (R q : Nat) (o : CreateOracles) :
    (getFrameSamplesNative R : ℤ) = round ((R : ℚ) * (10 / 1000)) ∧
    (∀ h, (createNative R q o).1 = some h →
      h.resampler_ctx.input_frame_samples = getFrameSamplesNative R ∧
      h.resampler_ctx.needs_resampling = decide (R ≠ AUDX_DEFAULT_SAMPLE_RATE)) ∧
    (∀ (h : NativeHandle) (i out : List Int) (po : ProcessOracles),
      Stage.upsample ∈ (processNative h i out po).stages ↔
        h.resampler_ctx.needs_resampling = true) := by
  refine ⟨?_, ?_, ?_⟩
  · rw [round_eq]
    have hq : (R : ℚ) * (10 / 1000) + 1 / 2 =
        ((R * 10 + 500 : ℕ) : ℚ) / ((1000 : ℕ) : ℚ) := by
      push_cast
      ring
    rw [hq, Rat.floor_natCast_div_natCast]
    simp [getFrameSamplesNative, get_frame_samples]
  · intro h hc
    cases hE : o.engineOk <;> by_cases hR : R = AUDX_DEFAULT_SAMPLE_RATE <;>
      cases hU : o.upOk <;> cases hD : o.downOk <;>
        simp_all [createNative, getFrameSamplesNative, AUDX_DEFAULT_SAMPLE_RATE] <;>
          (subst hc; simp_all)
  · intro h i out po
    cases hr : h.resampler_ctx.needs_resampling <;>
      cases hU : po.up.ok <;> cases hEng : po.eng.ok <;> cases hDn : po.down.ok <;>
        simp_all [processNative, audx_resample_process, denoiser_process]

/-- C9 witness: the session created at 44.1 kHz stores a 441-sample input
frame and a set resampling flag. -/
theorem frame_sizing_witness :
    sessR.resampler_ctx.input_frame_samples = getFrameSamplesNative 44100 ∧
    sessR.resampler_ctx.needs_resampling = decide (44100 ≠ AUDX_DEFAULT_SAMPLE_RATE) :=
  (frame_sizing_and_resampling_flag 44100 5 oAllOk).2.1 sessR rfl

/-- C10 counterexample: the output array is committed (mode 0, line 243)
before the reflection tail, so a `FindClass` failure makes the call return
an error — the null result — with the caller's output array already
changed from [1, 2, 3] to [9, 2, 3]. -/
theorem output_modified_on_reflection_failure :
    (processNativeCall sessR [] [1, 2, 3] oDown9 envNoClass).1 = none ∧
    (processNativeCall sessR [] [1, 2, 3] oDown9 envNoClass).2 = [9, 2, 3] ∧
    ([9, 2, 3] : List Int) ≠ [1, 2, 3] := by
  refine ⟨rfl, rfl, by decide⟩

/-- C10 amended: a call that fails before or during the processing stages —
null handle, scratch-buffer malloc failure, upconversion, engine or
downconversion failure — releases the output array with JNI_ABORT and
leaves it unchanged; but once the stages succeed the output is committed
before the reflection tail runs, so a `FindClass`/`GetMethodID`/`NewObject`
failure returns the null result with the output array already modified. -/
theorem output_commit_discipline (h : NativeHandle) (i out : List Int)
    (o : ProcessOracles) (e : CallEnv) :
    (processNativeOpt none i out o).2 = out ∧
    (h.resampler_ctx.needs_resampling = true → e.mallocOk = false →
      processNativeCall h i out o e = (none, out)) ∧
    ((processNative h i out o).result = none →
      (processNativeCall h i out o e).1 = none ∧
      (processNativeCall h i out o e).2 = out) ∧
    (∀ r, (processNative h i out o).result = some r → e.mallocOk = true →
      (processNativeCall h i out o e).2 = (processNative h i out o).javaOutput ∧
      ((e.findClassOk && e.getCtorOk && e.newObjectOk) = true →
        (processNativeCall h i out o e).1 = some r) ∧
      ((e.findClassOk && e.getCtorOk && e.newObjectOk) = false →
        (processNativeCall h i out o e).1 = none)) := by
  have key : (processNative h i out o).result = none →
      (processNative h i out o).javaOutput = out := by
    cases hr : h.resampler_ctx.needs_resampling <;>
      cases hU : o.up.ok <;> cases hEng : o.eng.ok <;> cases hDn : o.down.ok <;>
        simp_all [processNative, audx_resample_process, denoiser_process]
  refine ⟨rfl, ?_, ?_, ?_⟩
  · intro hr hm
    simp [processNativeCall, hr, hm]
  · intro hn
    cases hm : e.mallocOk <;>
      cases hr : h.resampler_ctx.needs_resampling <;>
        simp_all [processNativeCall, key hn]
  · intro r hr hm
    cases hnr : h.resampler_ctx.needs_resampling <;>
      cases hf : e.findClassOk <;> cases hg : e.getCtorOk <;>
        cases hn : e.newObjectOk <;>
          simp_all [processNativeCall]

/-- C10 witness: an upconversion failure leaves the output array [1, 2, 3]
unchanged, while a fully successful run commits the downconverted sample. -/
theorem output_commit_discipline_witness :
    (processNativeCall sessR [] [1, 2, 3] oUpFail envAllOk).1 = none ∧
    (processNativeCall sessR [] [1, 2, 3] oUpFail envAllOk).2 = [1, 2, 3] ∧
    (processNativeCall sessR [] [1, 2, 3] oDown9 envAllOk).2 = [9, 2, 3] := by
  obtain ⟨_, _, h3, _⟩ :=
    output_commit_discipline sessR [] [1, 2, 3] oUpFail envAllOk
  obtain ⟨hc1, hc2⟩ := h3 rfl
  obtain ⟨_, _, _, h4⟩ :=
    output_commit_discipline sessR [] [1, 2, 3] oDown9 envAllOk
  obtain ⟨hd1, _, _⟩ :=
    h4 { vad_probability := 1, is_speech := true, samples_processed := 1 } rfl rfl
  exact ⟨hc1, hc2, hd1⟩

end Audx
